import Mathlib

/-!
Shallow embedding of two modules of the repository:

* `deepchem/feat/material_featurizers/element_property_fingerprint.py`
  (`ElementPropertyFingerprint`): a thin adapter over matminer's
  `ElementProperty` engine that lazily builds the engine on first use,
  swallows computation failures into an empty feature list, and replaces
  `NaN` entries with `0.0` via `np.nan_to_num`.

* `deepchem/molnet/load_function/uspto_datasets.py` (`_USPTOLoader`): a
  loader that validates a subset name, picks a fixed URL, downloads the
  CSV only when the cache file is absent, and hands the file to a generic
  `CSVLoader` with a fixed shard size.

Python floats are modelled by `FVal`: `NaN`, the two infinities, and finite
values carried as rationals. External effects (the matminer import, the
engine computation, the filesystem, the network) are modelled as explicit
parameters and as an effect trace in the result.
-/

/-- A floating-point value as the featurizer observes it: `NaN`, an
infinity, or a finite number (carried as a rational). -/
inductive FVal where
  | nan : FVal
  | posinf : FVal
  | neginf : FVal
  | fin : ℚ → FVal
deriving DecidableEq

/-- `numpy`'s largest finite double, the value `np.nan_to_num` substitutes
for `+inf` (1.7976931348623157e+308). -/
def floatMaxRat : ℚ := 17976931348623157 * 10 ^ 292

/-- Elementwise behaviour of `np.nan_to_num`: `NaN` becomes `0.0`,
`±inf` become the extreme finite doubles, finite values pass through. -/
def FVal.nanToNum : FVal → FVal
  | .nan => .fin 0
  | .posinf => .fin floatMaxRat
  | .neginf => .fin (-floatMaxRat)
  | .fin q => .fin q

/-- The kinds of Python exception the embedded code distinguishes. -/
inductive PyError where
  | moduleNotFoundError : String → PyError
  | importError : String → PyError
  | valueError : String → PyError
  | otherError : String → PyError
deriving DecidableEq

/-- A pymatgen `Composition` is opaque to this code; an identifier
suffices. -/
abbrev PymatgenComposition := String

/-- A matminer `ElementProperty` engine: computing the statistics vector
for a composition may raise. -/
abbrev Engine := PymatgenComposition → Except PyError (List FVal)

/-- The external matminer library as the adapter sees it: whether
importing it succeeds, and what `ElementProperty.from_preset` yields per
`data_source` string. -/
structure MatminerEnv where
  installed : Bool
  fromPreset : String → Except PyError Engine

/-- State of an `ElementPropertyFingerprint` instance: the configured
`data_source` and the lazily cached engine (`None` until first use). -/
structure ElementPropertyFingerprint where
  data_source : String
  ep_featurizer : Option Engine

/-- Message of the `ImportError` raised when matminer is missing
(source line 82). -/
def matminerImportMsg : String := "This class requires matminer to be installed."

/-- The `try: from matminer... ; ElementProperty.from_preset(...)`
block: a failing import raises `ModuleNotFoundError`, which the
`except ModuleNotFoundError` clause translates into the `ImportError`;
any other exception from `from_preset` propagates unchanged. -/
def buildEngine (env : MatminerEnv) (ds : String) : Except PyError Engine :=
  match (if env.installed then env.fromPreset ds
         else .error (.moduleNotFoundError "No module named matminer")) with
  | .error (.moduleNotFoundError _) => .error (.importError matminerImportMsg)
  | r => r

/-- The engine used by a call: the cached one when present, otherwise the
one built from the preset (source lines 77-82). -/
def ElementPropertyFingerprint.engineOf (self : ElementPropertyFingerprint)
    (env : MatminerEnv) : Except PyError Engine :=
  match self.ep_featurizer with
  | some eng => .ok eng
  | none => buildEngine env self.data_source

/-- The `try: feats = ...featurize(composition) except: feats = []` block
(source lines 84-87): any exception degrades to the empty list. -/
def rawFeats (eng : Engine) (comp : PymatgenComposition) : List FVal :=
  match eng comp with
  | .ok fs => fs
  | .error _ => []

/-- `ElementPropertyFingerprint._featurize` (source lines 62-89): build or
reuse the engine, compute the raw statistics (empty on failure), then
apply `np.nan_to_num`. Returns the updated instance state alongside the
vector; a failed engine construction raises. -/
def ElementPropertyFingerprint._featurize (self : ElementPropertyFingerprint)
    (env : MatminerEnv) (comp : PymatgenComposition) :
    Except PyError (ElementPropertyFingerprint × List FVal) :=
  match self.engineOf env with
  | .error e => .error e
  | .ok eng =>
      .ok ({ self with ep_featurizer := some eng },
           (rawFeats eng comp).map FVal.nanToNum)

/-- Whether the character list `sub` occurs as a prefix of `s`. -/
def listStartsWith : List Char → List Char → Bool
  | _, [] => true
  | [], _ :: _ => false
  | c :: cs, d :: ds => c = d && listStartsWith cs ds

/-- Whether `sub` occurs as a contiguous sublist of `s`. -/
def listHasSub : List Char → List Char → Bool
  | [], sub => sub.isEmpty
  | c :: tl, sub => listStartsWith (c :: tl) sub || listHasSub tl sub

/-- Substring test on strings, via the underlying character lists. -/
def strContains (s sub : String) : Bool := listHasSub s.data sub.data

/-- The `splitter` argument of `_USPTOLoader`: a `Splitter` object, a
shortcut string, or `None` (`Union[Splitter, str, None]`). The source
compares it with the string `'SpecifiedSplitter'` via `==`. -/
inductive SplitterArg where
  | noneArg : SplitterArg
  | strArg : String → SplitterArg
  | objArg : String → SplitterArg
deriving DecidableEq

/-- Python `==` between the splitter argument and a string: true exactly
when the argument is that string. -/
def SplitterArg.eqStr (sp : SplitterArg) (s : String) : Bool :=
  match sp with
  | .strArg t => t = s
  | _ => false

/-- A featurizer object is opaque to this loader; an identifier
suffices. -/
abbrev Featurizer := String

/-- `USPTO_MIT_URL` (source line 18). -/
def USPTO_MIT_URL : String :=
  "https://deepchemdata.s3.us-west-1.amazonaws.com/datasets/USPTO_MIT.csv"

/-- `USPTO_STEREO_URL` (source line 19). -/
def USPTO_STEREO_URL : String :=
  "https://deepchemdata.s3.us-west-1.amazonaws.com/datasets/USPTO_STEREO.csv"

/-- `USPTO_50K_URL` (source line 20). -/
def USPTO_50K_URL : String :=
  "https://deepchemdata.s3.us-west-1.amazonaws.com/datasets/USPTO_50K.csv"

/-- `USPTO_FULL_URL` (source line 21). -/
def USPTO_FULL_URL : String :=
  "https://deepchemdata.s3.us-west-1.amazonaws.com/datasets/USPTO_FULL.csv"

/-- `USPTO_TASK: List[str] = []` (source line 23). -/
def USPTO_TASK : List String := []

/-- State of a `_USPTOLoader` instance. `_MolnetLoader.__init__` (outside
this excerpt) stores the generic arguments on the instance; the subclass
adds `subset`, `sep_reagent` and `name`. -/
structure USPTOLoader where
  featurizer : Featurizer
  splitter : SplitterArg
  transformers : List String
  tasks : List String
  data_dir : String
  save_dir : Option String
  subset : String
  sep_reagent : Bool
  name : String
deriving DecidableEq

/-- `_USPTOLoader.__init__` (source lines 28-32): store the arguments and
set `name = 'USPTO_' + subset`. The storage of the generic arguments is
modelled from the spec: `featurizer`, `splitter`, `transformers`,
`data_dir`, `save_dir` are "generic knobs delegated to the enclosing
generic-loader framework" (`_MolnetLoader`, not in this excerpt), held
unchanged on the instance. -/
def USPTOLoader.init (featurizer : Featurizer) (splitter : SplitterArg)
    (transformers : List String) (tasks : List String) (data_dir : String)
    (save_dir : Option String) (subset : String) (sep : Bool) : USPTOLoader :=
  { featurizer := featurizer, splitter := splitter,
    transformers := transformers, tasks := tasks, data_dir := data_dir,
    save_dir := save_dir, subset := subset, sep_reagent := sep,
    name := "USPTO_" ++ subset }

/-- The subset names accepted by the validation check (source line 35). -/
def validSubsets : List String := ["MIT", "STEREO", "50K", "FULL"]

/-- The `dataset_url` assigned by the four `if` statements (source lines
38-48); on the valid domain the sequential `if`s are this dispatch. -/
def subsetUrl (s : String) : String :=
  if s = "MIT" then USPTO_MIT_URL
  else if s = "STEREO" then USPTO_STEREO_URL
  else if s = "50K" then USPTO_50K_URL
  else USPTO_FULL_URL

/-- `os.path.join(data_dir, f)` for a relative second component. -/
def osPathJoin (d f : String) : String := d ++ "/" ++ f

/-- Message of the `ValueError` for an unrecognized subset
(source line 36). -/
def usptoInvalidSubsetMsg : String := "Valid Subset names are MIT, STEREO and 50K."

/-- Message of the `ValueError` for `subset == 'FULL'` with the
`SpecifiedSplitter` splitter (source lines 50-52). -/
def usptoFullSplitMsg : String :=
  "There is no pre computed split for the full dataset, use a custom split instead!"

/-- The configuration the loader passes to `dc.data.CSVLoader`
(source lines 61-62). -/
structure CSVLoaderConfig where
  tasks : List String
  feature_field : String
  featurizer : Featurizer
deriving DecidableEq

/-- The final `loader.create_dataset(dataset_file, shard_size=8192)` call
(source line 64), together with the `CSVLoader` configuration: this is the
full description of the dataset the method returns. -/
structure CreateDatasetCall where
  config : CSVLoaderConfig
  dataset_file : String
  shard_size : Nat
deriving DecidableEq

/-- `_USPTOLoader.create_dataset` (source lines 34-64) on a filesystem
`fs` (the list of existing paths). Returns the trace of
`download_url(url, dest_dir)` calls performed, in order, and either the
raised error or the `CSVLoader.create_dataset` call that produces the
returned dataset. The download itself is external network I/O; its effect
is recorded in the trace. -/
def USPTOLoader.createDataset (self : USPTOLoader) (fs : List String) :
    List (String × String) × Except PyError CreateDatasetCall :=
  if self.subset ∈ validSubsets then
    if self.subset = "FULL" ∧ self.splitter.eqStr "SpecifiedSplitter" = true then
      ([], .error (.valueError usptoFullSplitMsg))
    else
      let dataset_file := osPathJoin self.data_dir (self.name ++ ".csv")
      let downloads :=
        if dataset_file ∈ fs then ([] : List (String × String))
        else [(subsetUrl self.subset, self.data_dir)]
      (downloads,
       .ok { config := { tasks := self.tasks, feature_field := "reactions",
                         featurizer := self.featurizer },
             dataset_file := dataset_file, shard_size := 8192 })
  else ([], .error (.valueError usptoInvalidSubsetMsg))

/-- The `_USPTOLoader` built by `load_uspto` (source lines 151-160):
the task list is the module-level `USPTO_TASK`. -/
def loadUsptoLoader (featurizer : Featurizer) (splitter : SplitterArg)
    (transformers : List String) (data_dir : String) (save_dir : Option String)
    (subset : String) (sep : Bool) : USPTOLoader :=
  USPTOLoader.init featurizer splitter transformers USPTO_TASK data_dir
    save_dir subset sep

/-! ## Concrete instances used by the witnesses -/

/-- An engine whose raw output contains a `NaN` and a finite value. -/
def engNanEx : Engine := fun _ => .ok [FVal.nan, FVal.fin 3]

/-- An engine whose computation always raises. -/
def engFailEx : Engine := fun _ => .error (.otherError "featurization failed")

/-- Matminer installed; every preset yields `engNanEx`. -/
def envOkEx : MatminerEnv := { installed := true, fromPreset := fun _ => .ok engNanEx }

/-- Matminer installed; every preset yields the failing engine. -/
def envFailEx : MatminerEnv := { installed := true, fromPreset := fun _ => .ok engFailEx }

/-- Matminer not installed. -/
def envMissingEx : MatminerEnv := { installed := false, fromPreset := fun _ => .ok engNanEx }

/-- A freshly constructed featurizer (no cached engine). -/
def epfEx : ElementPropertyFingerprint := { data_source := "matminer", ep_featurizer := none }

/-! ## Helper lemmas -/

/-- `nan_to_num` never returns `NaN`. -/
theorem FVal.nanToNum_ne_nan (x : FVal) : FVal.nanToNum x ≠ FVal.nan := by
  cases x <;> simp [FVal.nanToNum]

/-- On a recognized subset that passes the FULL/SpecifiedSplitter check,
`create_dataset` downloads exactly when the cache file is absent and makes
the `CSVLoader.create_dataset` call with its instance configuration. -/
theorem USPTOLoader.createDataset_ok (ℓ : USPTOLoader) (fs : List String)
    (hsub : ℓ.subset ∈ validSubsets)
    (hns : ¬(ℓ.subset = "FULL" ∧ ℓ.splitter.eqStr "SpecifiedSplitter" = true)) :
    ℓ.createDataset fs =
      (if osPathJoin ℓ.data_dir (ℓ.name ++ ".csv") ∈ fs then []
       else [(subsetUrl ℓ.subset, ℓ.data_dir)],
       .ok { config := { tasks := ℓ.tasks, feature_field := "reactions",
                         featurizer := ℓ.featurizer },
             dataset_file := osPathJoin ℓ.data_dir (ℓ.name ++ ".csv"),
             shard_size := 8192 }) := by
  unfold USPTOLoader.createDataset
  rw [if_pos hsub, if_neg hns]

/-! ## Claims about `ElementPropertyFingerprint._featurize` -/

/-- C1: for every valid `data_source` in {matminer, magpie, deml} and
every composition, a vector returned by `_featurize` contains no `NaN`
entry: it is the raw engine output mapped through `nan_to_num`, which
sends `NaN` to `0.0`. -/
theorem C1_featurize_no_nan (env : MatminerEnv)
    (self : ElementPropertyFingerprint) (comp : PymatgenComposition)
    (s : ElementPropertyFingerprint) (v : List FVal)
    (_hds : self.data_source ∈ ["matminer", "magpie", "deml"])
    (h : self._featurize env comp = .ok (s, v)) :
    (∀ x ∈ v, x ≠ FVal.nan) ∧
      (∀ eng : Engine, self.engineOf env = .ok eng →
        v = (rawFeats eng comp).map FVal.nanToNum) ∧
      FVal.nanToNum FVal.nan = FVal.fin 0 := by
  unfold ElementPropertyFingerprint._featurize at h
  cases hE : self.engineOf env with
  | error e => rw [hE] at h; simp at h
  | ok eng =>
    rw [hE] at h
    simp only [Except.ok.injEq, Prod.mk.injEq] at h
    obtain ⟨-, hv⟩ := h
    subst hv
    refine ⟨?_, ?_, rfl⟩
    · intro x hx
      simp only [List.mem_map] at hx
      obtain ⟨y, -, hy⟩ := hx
      rw [← hy]
      exact FVal.nanToNum_ne_nan y
    · intro eng' hE'
      injection hE' with he
      rw [he]

/-- Witness for C1: a concrete run whose raw output contains a `NaN`. -/
theorem C1_witness :
    (∀ x ∈ [FVal.fin 0, FVal.fin 3], x ≠ FVal.nan) ∧
      (∀ eng : Engine, epfEx.engineOf envOkEx = .ok eng →
        [FVal.fin 0, FVal.fin 3] = (rawFeats eng "Fe2O3").map FVal.nanToNum) ∧
      FVal.nanToNum FVal.nan = FVal.fin 0 :=
  C1_featurize_no_nan envOkEx epfEx "Fe2O3"
    { data_source := "matminer", ep_featurizer := some engNanEx }
    [FVal.fin 0, FVal.fin 3] (by decide) rfl

/-- C2: when the engine computation raises any exception, `_featurize`
swallows the failure and returns the empty vector (the empty list passed
through the `NaN` substitution stays empty — not zeros of the preset's
expected length). -/
theorem C2_exception_yields_empty (env : MatminerEnv)
    (self : ElementPropertyFingerprint) (comp : PymatgenComposition)
    (eng : Engine) (e : PyError)
    (heng : self.engineOf env = .ok eng)
    (hfail : eng comp = .error e) :
    self._featurize env comp =
      .ok ({ self with ep_featurizer := some eng }, []) := by
  unfold ElementPropertyFingerprint._featurize
  rw [heng]
  simp [rawFeats, hfail]

/-- Witness for C2: a concrete run with a failing engine. -/
theorem C2_witness :
    ElementPropertyFingerprint._featurize
        { data_source := "magpie", ep_featurizer := none } envFailEx "Fe2O3" =
      .ok ({ data_source := "magpie", ep_featurizer := some engFailEx }, []) :=
  C2_exception_yields_empty envFailEx
    { data_source := "magpie", ep_featurizer := none } "Fe2O3" engFailEx
    (.otherError "featurization failed") rfl rfl

/-- C6: with matminer not installed, the first call (no cached engine)
raises an `ImportError` whose message names matminer and directs the user
to install it, instead of the raw `ModuleNotFoundError`. -/
theorem C6_missing_matminer (env : MatminerEnv)
    (self : ElementPropertyFingerprint) (comp : PymatgenComposition)
    (hinst : env.installed = false)
    (hfresh : self.ep_featurizer = none) :
    self._featurize env comp = .error (.importError matminerImportMsg) ∧
      strContains matminerImportMsg "matminer" = true ∧
      strContains matminerImportMsg "install" = true := by
  refine ⟨?_, by decide, by decide⟩
  simp [ElementPropertyFingerprint._featurize,
        ElementPropertyFingerprint.engineOf, buildEngine, hfresh, hinst]

/-- Witness for C6: a concrete first call with matminer missing. -/
theorem C6_witness :
    ElementPropertyFingerprint._featurize epfEx envMissingEx "Fe2O3" =
        .error (.importError matminerImportMsg) ∧
      strContains matminerImportMsg "matminer" = true ∧
      strContains matminerImportMsg "install" = true :=
  C6_missing_matminer envMissingEx epfEx "Fe2O3" rfl rfl

/-- C7: a second call on the state returned by a successful first call,
with the same composition, returns the identical state and vector: the
one-time engine caching does not change later outputs. -/
theorem C7_featurize_idempotent (env : MatminerEnv)
    (self : ElementPropertyFingerprint) (comp : PymatgenComposition)
    (s : ElementPropertyFingerprint) (v : List FVal)
    (h : self._featurize env comp = .ok (s, v)) :
    s._featurize env comp = .ok (s, v) := by
  unfold ElementPropertyFingerprint._featurize at h ⊢
  cases hE : self.engineOf env with
  | error e => rw [hE] at h; simp at h
  | ok eng =>
    rw [hE] at h
    simp only [Except.ok.injEq, Prod.mk.injEq] at h
    obtain ⟨hs, hv⟩ := h
    have hsE : s.engineOf env = .ok eng := by
      rw [← hs]; rfl
    rw [hsE]
    have hss : ({ s with ep_featurizer := some eng } : ElementPropertyFingerprint) = s := by
      rw [← hs]
    show Except.ok (({ s with ep_featurizer := some eng } : ElementPropertyFingerprint),
        (rawFeats eng comp).map FVal.nanToNum) = Except.ok (s, v)
    rw [hss, hv]

/-- Witness for C7: the second call after the concrete run of C1. -/
theorem C7_witness :
    ElementPropertyFingerprint._featurize
        { data_source := "matminer", ep_featurizer := some engNanEx } envOkEx "Fe2O3" =
      .ok ({ data_source := "matminer", ep_featurizer := some engNanEx },
           [FVal.fin 0, FVal.fin 3]) :=
  C7_featurize_idempotent envOkEx epfEx "Fe2O3"
    { data_source := "matminer", ep_featurizer := some engNanEx }
    [FVal.fin 0, FVal.fin 3] rfl

/-! ## Claims about `_USPTOLoader.create_dataset` -/

/-- A concrete loader with an unrecognized subset name. -/
def usptoBogusEx : USPTOLoader :=
  USPTOLoader.init "DummyFeaturizer" .noneArg [] USPTO_TASK "/data" none "BOGUS" true

/-- A concrete loader for the MIT subset. -/
def usptoMITEx : USPTOLoader :=
  USPTOLoader.init "DummyFeaturizer" .noneArg [] USPTO_TASK "/data" none "MIT" true

/-- A concrete loader combining the FULL subset with the
`SpecifiedSplitter` split strategy. -/
def usptoFullSpEx : USPTOLoader :=
  USPTOLoader.init "DummyFeaturizer" (.strArg "SpecifiedSplitter") [] USPTO_TASK
    "/data" none "FULL" true

/-- C3: for a recognized subset (not rejected by the FULL splitter check),
the download trace is empty exactly when the cache file
`USPTO_<subset>.csv` exists in the data directory; when it is absent the
trace is the single download of the subset's URL into that directory —
file existence is the sole cache-validity signal. -/
theorem C3_download_iff_cache_absent (ℓ : USPTOLoader) (fs : List String)
    (hname : ℓ.name = "USPTO_" ++ ℓ.subset)
    (hsub : ℓ.subset ∈ validSubsets)
    (hns : ¬(ℓ.subset = "FULL" ∧ ℓ.splitter.eqStr "SpecifiedSplitter" = true)) :
    (ℓ.createDataset fs).1 =
      if osPathJoin ℓ.data_dir (("USPTO_" ++ ℓ.subset) ++ ".csv") ∈ fs then []
      else [(subsetUrl ℓ.subset, ℓ.data_dir)] := by
  rw [ℓ.createDataset_ok fs hsub hns, hname]

/-- Witness for C3: the MIT loader on an empty filesystem. -/
theorem C3_witness :
    (usptoMITEx.createDataset []).1 =
      if osPathJoin usptoMITEx.data_dir (("USPTO_" ++ usptoMITEx.subset) ++ ".csv")
          ∈ ([] : List String) then []
      else [(subsetUrl usptoMITEx.subset, usptoMITEx.data_dir)] :=
  C3_download_iff_cache_absent usptoMITEx [] rfl (by decide) (by decide)

/-- C4: an unrecognized subset raises the `ValueError` immediately, with
an empty download trace: no network access is performed. -/
theorem C4_invalid_subset_no_download (ℓ : USPTOLoader) (fs : List String)
    (h : ℓ.subset ∉ validSubsets) :
    ℓ.createDataset fs = ([], .error (.valueError usptoInvalidSubsetMsg)) := by
  unfold USPTOLoader.createDataset
  rw [if_neg h]

/-- Witness for C4: the subset "BOGUS". -/
theorem C4_witness :
    usptoBogusEx.createDataset [] =
      ([], .error (.valueError usptoInvalidSubsetMsg)) :=
  C4_invalid_subset_no_download usptoBogusEx [] (by decide)

/-- C5: `subset = "FULL"` combined with the `SpecifiedSplitter` split
strategy raises the `ValueError` with an empty download trace: the
rejection happens before any download attempt. -/
theorem C5_full_specified_splitter (ℓ : USPTOLoader) (fs : List String)
    (hsub : ℓ.subset = "FULL")
    (hsp : ℓ.splitter.eqStr "SpecifiedSplitter" = true) :
    ℓ.createDataset fs = ([], .error (.valueError usptoFullSplitMsg)) := by
  unfold USPTOLoader.createDataset
  have h1 : ℓ.subset ∈ validSubsets := by rw [hsub]; decide
  rw [if_pos h1, if_pos (And.intro hsub hsp)]

/-- Witness for C5: FULL subset with the SpecifiedSplitter string. -/
theorem C5_witness :
    usptoFullSpEx.createDataset [] = ([], .error (.valueError usptoFullSplitMsg)) :=
  C5_full_specified_splitter usptoFullSpEx [] rfl (by decide)

/-- C8: for every recognized, non-rejected subset, the loader built by
`load_uspto` makes the `CSVLoader.create_dataset` call with the empty
`USPTO_TASK` task list, `"reactions"` as the single feature field, the
given featurizer, and shard size 8192. -/
theorem C8_csvloader_config (f : Featurizer) (sp : SplitterArg)
    (tr : List String) (d : String) (sv : Option String) (subset : String)
    (sep : Bool) (fs : List String)
    (hsub : subset ∈ validSubsets)
    (hns : ¬(subset = "FULL" ∧ sp.eqStr "SpecifiedSplitter" = true)) :
    ∃ t : List (String × String),
      (loadUsptoLoader f sp tr d sv subset sep).createDataset fs =
        (t, .ok { config := { tasks := [], feature_field := "reactions",
                              featurizer := f },
                  dataset_file := osPathJoin d (("USPTO_" ++ subset) ++ ".csv"),
                  shard_size := 8192 }) :=
  ⟨_, (loadUsptoLoader f sp tr d sv subset sep).createDataset_ok fs hsub hns⟩

/-- Witness for C8: the 50K subset via `load_uspto`'s loader. -/
theorem C8_witness :
    ∃ t : List (String × String),
      (loadUsptoLoader "DummyFeaturizer" .noneArg [] "/data" none "50K" true).createDataset [] =
        (t, .ok { config := { tasks := [], feature_field := "reactions",
                              featurizer := "DummyFeaturizer" },
                  dataset_file := osPathJoin "/data" (("USPTO_" ++ "50K") ++ ".csv"),
                  shard_size := 8192 }) :=
  C8_csvloader_config "DummyFeaturizer" .noneArg [] "/data" none "50K" true []
    (by decide) (by decide)

/-- C9: `sep_reagent` is a no-op: two loaders built with identical
arguments except `sep_reagent` have identical `create_dataset` behaviour
(same download trace and same error or dataset-producing call) on every
filesystem. -/
theorem C9_sep_reagent_noop (f : Featurizer) (sp : SplitterArg)
    (tr : List String) (t : List String) (d : String) (sv : Option String)
    (subset : String) (b₁ b₂ : Bool) (fs : List String) :
    (USPTOLoader.init f sp tr t d sv subset b₁).createDataset fs =
      (USPTOLoader.init f sp tr t d sv subset b₂).createDataset fs := rfl

/-- C10: the unrecognized-subset error message is exactly
"Valid Subset names are MIT, STEREO and 50K.", a message that does not
mention FULL, even though "FULL" passes the same validation check. -/
theorem C10_invalid_subset_message (ℓ : USPTOLoader) (fs : List String)
    (h : ℓ.subset ∉ validSubsets) :
    (ℓ.createDataset fs).2 =
        .error (.valueError "Valid Subset names are MIT, STEREO and 50K.") ∧
      strContains usptoInvalidSubsetMsg "FULL" = false ∧
      "FULL" ∈ validSubsets := by
  refine ⟨?_, by decide, by decide⟩
  unfold USPTOLoader.createDataset
  rw [if_neg h]
  rfl

/-- Witness for C10: the subset "BOGUS". -/
theorem C10_witness :
    (usptoBogusEx.createDataset []).2 =
        .error (.valueError "Valid Subset names are MIT, STEREO and 50K.") ∧
      strContains usptoInvalidSubsetMsg "FULL" = false ∧
      "FULL" ∈ validSubsets :=
  C10_invalid_subset_message usptoBogusEx [] (by decide)
